import Mathlib

/-!
Verification of the change-extraction and batching subsystem of `aicmt`.

The definitions below are a shallow embedding of `aicmt/ai_analyzer.py`
(the batch planner, `AIAnalyzer.analyze_changes`) and of
`aicmt/git_operations.py` (the repository scanner: `get_unstaged_changes`,
`get_staged_changes`, `_handle_modified_file`, `_handle_untracked_file`).

External collaborators (the OpenAI client, the git library, the file
system) are modelled as explicit oracles that are passed in: a `Client`
function for the grouping call, and a `RepoFS` record carrying per-file
facts (existence, raw bytes, UTF-8 decodability, read failures) and
per-path git-command results.  Python exceptions are modelled with
`Except`; the while-loop of the batch planner is given explicit fuel, with
`PlanOut.outOfFuel` marking a run that did not finish within the fuel.
-/

namespace Aicmt

/-- Boolean test that the first character list is a leading segment of the
second; models Python `str.startswith` after converting to characters. -/
def strStarts : List Char → List Char → Bool
  | [], _ => true
  | _ :: _, [] => false
  | a :: pa, b :: pb => a == b && strStarts pa pb

/-- Boolean substring test on character lists; models the Python `in`
operator on strings. -/
def strHas (pat : List Char) : List Char → Bool
  | [] => strStarts pat []
  | b :: bs => strStarts pat (b :: bs) || strHas pat bs

/-- Python `s.startswith(pat)` on strings. -/
def pyStarts (pat s : String) : Bool := strStarts pat.data s.data

/-- Python `pat in s` (substring containment) on strings. -/
def pyIn (pat s : String) : Bool := strHas pat.data s.data

/-- Python `s.lower()`; ASCII lowering suffices for the error messages the
planner inspects. -/
def pyLower (s : String) : String := String.mk (s.data.map Char.toLower)

/-- Split a character list at every occurrence of `sep`, keeping empty
pieces; models Python `str.split(sep)` for a one-character separator. -/
def splitChars (sep : Char) : List Char → List (List Char)
  | [] => [[]]
  | c :: cs =>
    match splitChars sep cs with
    | [] => if c == sep then [[], []] else [[c]]
    | h :: t => if c == sep then [] :: h :: t else (c :: h) :: t

/-- Join character lists with a one-character separator; models Python
`sep.join(parts)`. -/
def joinChar (sep : Char) : List (List Char) → List Char
  | [] => []
  | [l] => l
  | l :: ls => l ++ sep :: joinChar sep ls

/-- Python `s.split("\n")` as a list of strings. -/
def pySplitNl (s : String) : List String :=
  (splitChars (Char.ofNat 10) s.data).map (fun l => String.mk l)

/-- Python `s.splitlines()` restricted to line-feed terminated text, which
is the only terminator the analysed code produces. -/
def pySplitlinesNl (s : String) : List String :=
  let parts := pySplitNl s
  if parts.getLastD "" == "" then parts.dropLast else parts

/-- Python `len(s.splitlines())`, the line count used by the staged scan
for new files (`git_operations.py` line 144). -/
def pyLineCount (s : String) : Nat := (pySplitlinesNl s).length

/-- The record type of `git_operations.Change` (a `NamedTuple`). -/
structure Change where
  file : String
  status : String
  diff : String
  insertions : Nat
  deletions : Nat
deriving DecidableEq

/-- One commit group as validated and returned by
`AIAnalyzer._validate_and_format_result`. -/
structure CommitGroup where
  files : List String
  commit_message : String
  description : String
deriving DecidableEq

/-- A Python exception as seen by `analyze_changes`: whether it is an
`OpenAIError` (the only class its retry logic catches) and its message. -/
structure PyExc where
  isOpenAI : Bool
  msg : String
deriving DecidableEq

/-- Result of one grouping call (`process_batch`): either a validated list
of commit groups, or a raised exception. -/
inductive ClientRes where
  | ok (groups : List CommitGroup)
  | exc (e : PyExc)

/-- The Grouping Client, abstracted over the batch it receives. -/
abbrev Client := List Change → ClientRes

/-- The discriminator at `ai_analyzer.py` lines 75 and 115: the exception
is an `OpenAIError` whose lowered message contains the fixed phrase. -/
def isCtxLenErr (e : PyExc) : Bool :=
  e.isOpenAI && pyIn "maximum context length" (pyLower e.msg)

/-- The relatedness test of `ai_analyzer.py` lines 100-102: the stem of
the current file (last path segment up to the first dot) occurs in the
candidate path, or the two files share the same directory string. -/
def relatedTo (curr cand : Change) : Bool :=
  strHas ((splitChars (Char.ofNat 46) ((splitChars (Char.ofNat 47) curr.file.data).getLastD [])).headD []) cand.file.data
    || joinChar (Char.ofNat 47) ((splitChars (Char.ofNat 47) curr.file.data).dropLast)
        == joinChar (Char.ofNat 47) ((splitChars (Char.ofNat 47) cand.file.data).dropLast)

/-- The locality-extension pass of `ai_analyzer.py` lines 97-105: a Python
`for i, change in enumerate(next_files)` loop that appends a related
candidate to the batch and pops it from `next_files` at the current
iterator position.  In CPython a pop at the iterator position shifts the
next element into the popped slot, which the advancing iterator then
skips; so after an absorbed candidate the immediately following one is
moved unexamined into `kept`.  `kept` holds the elements that stay in
`next_files` behind the iterator; the arguments are the batch so far, the
kept list, and the candidates still ahead of the iterator. -/
def extendPass (cb : List Change) (kept : List Change) : List Change → List Change × List Change
  | [] => (cb, kept)
  | c :: rest =>
    if cb.any (fun curr => relatedTo curr c) then
      match rest with
      | [] => (cb ++ [c], kept)
      | d :: rest2 => extendPass (cb ++ [c]) (kept ++ [d]) rest2
    else extendPass cb (kept ++ [c]) rest

/-- The batch actually sent for a given `remaining` list and `batch_size`:
the `batch_size`-prefix, extended by the locality pass over the rest
(`ai_analyzer.py` lines 91-105). -/
def currentBatch (remaining : List Change) (batchSize : Nat) : List Change :=
  (extendPass (remaining.take batchSize) [] (remaining.drop batchSize)).1

/-- Outcome of the planner.  `outOfFuel` marks a run of the (fuel-free)
Python `while` loop that has not finished within the given fuel. -/
inductive PlanOut where
  | done (groups : List CommitGroup) (okBatches : List (List Change))
  | fatal
  | raised (e : PyExc)
  | outOfFuel
deriving DecidableEq

/-- The `while remaining_changes:` loop of `ai_analyzer.py` lines 85-121.
`acc` is `all_results`; `bs` instruments the run with the list of batches
whose grouping call succeeded, in order.  On success the code advances
`remaining_changes` by `len(current_batch)` (line 112); on a context-length
failure it halves `batch_size` with `max(1, batch_size // 2)` (line 116)
and retries the same remainder; any other exception propagates. -/
def batchLoop (client : Client) : Nat → List Change → Nat → List CommitGroup → List (List Change) → PlanOut
  | _, [], _, acc, bs => .done acc bs
  | 0, _ :: _, _, _, _ => .outOfFuel
  | fuel + 1, r0 :: rs, batchSize, acc, bs =>
    if batchSize < 1 then .fatal
    else
      let cb := currentBatch (r0 :: rs) batchSize
      match client cb with
      | .ok groups => batchLoop client fuel ((r0 :: rs).drop cb.length) batchSize (acc ++ groups) (bs ++ [cb])
      | .exc e =>
        if isCtxLenErr e then
          batchLoop client fuel (r0 :: rs) (max 1 (batchSize / 2)) acc bs
        else .raised e

/-- Configuration as far as the planner consults it before any model
call: whether an API key is configured (`ai_analyzer.py` lines 17-23). -/
structure Config where
  apiKey : Option String

/-- `AIAnalyzer.analyze_changes` (`ai_analyzer.py` lines 34-121) up to the
planner boundary: the outer user-facing translation of raised errors
(lines 123-148) is the caller-side presentation layer in the spec and is
not part of the planner.  An empty change list returns `[]` before the
client is initialized; otherwise the whole list is tried at once, and a
context-length failure switches to the batch loop with
`batch_size = len(changes) // 2`. -/
def analyze_changes (cfg : Config) (client : Client) (fuel : Nat) (changes : List Change) : PlanOut :=
  if changes.isEmpty then .done [] []
  else if cfg.apiKey.isNone then .raised ⟨false, "OpenAI API key not set"⟩
  else
    match client changes with
    | .ok groups => .done groups [changes]
    | .exc e =>
      if isCtxLenErr e then
        batchLoop client fuel changes (changes.length / 2) [] []
      else .raised e

/-- Facts about one path in the working tree, as the scanner's file-system
calls would observe them.  `text` is the result of reading the file as
UTF-8 (`none` models a `UnicodeDecodeError`); `readErr` (when `some`)
models an `OSError` raised on opening or reading the file. -/
structure FileInfo where
  onDisk : Bool
  isFile : Bool
  bytes : List Nat
  text : Option String
  readErr : Option String

/-- A blob as the staged scan consults it: `size` is the blob size in
bytes (GitPython `Blob.size`) and `is_binary` its content-type probe. -/
structure Blob where
  size : Nat
  is_binary : Bool

/-- One entry of the staged diff index (`repo.index.diff(None, staged=True)`).
`insertions_attr`/`deletions_attr` model `getattr` on the optional
`insertions`/`deletions` attributes (absent on GitPython diff objects,
hence defaulted to 0 at `git_operations.py` lines 125-126). -/
structure DiffEntry where
  a_path : Option String
  b_path : Option String
  deleted_file : Bool
  new_file : Bool
  a_blob : Option Blob
  b_blob : Option Blob
  insertions_attr : Option Nat
  deletions_attr : Option Nat

/-- The repository and file system as the scanner's oracles: the modified
and untracked path lists, per-path file facts, and the results of the git
diff commands the scanner issues (`Except.error` models a
`GitCommandError`). -/
structure RepoFS where
  modified : List String
  untracked : List String
  info : String → FileInfo
  gitDiff : String → Except String String
  diffCached : String → Except String String
  numstatRes : String → Except String (List String)

/-- `GitOperations._handle_modified_file` (`git_operations.py` lines
175-195): try the diff; on a git-command failure reclassify as deleted
when the file is gone from disk, otherwise raise an `IOError`. -/
def handle_modified_file (fs : RepoFS) (f : String) : Except String (String × String) :=
  match fs.gitDiff f with
  | .ok d => .ok ("modified", d)
  | .error _ =>
    if !(fs.info f).onDisk then .ok ("deleted", "[File deleted]")
    else .error ("Failed to get diff for " ++ f)

/-- `GitOperations._handle_untracked_file` (`git_operations.py` lines
197-223): vanished files are deleted; a NUL byte in the first MiB or a
UTF-8 decode failure classifies as binary; otherwise the full text is the
diff content. -/
def handle_untracked_file (fs : RepoFS) (f : String) : Except String (String × String) :=
  if !(fs.info f).isFile then .ok ("deleted", "[File deleted]")
  else
    match (fs.info f).readErr with
    | some m => .error m
    | none =>
      if ((fs.info f).bytes.take 1048576).contains 0 then .ok ("new file (binary)", "[Binary file]")
      else
        match (fs.info f).text with
        | some t => .ok ("new file", t)
        | none => .ok ("new file (binary)", "[Binary file]")

/-- The plus-line count of `git_operations.py` lines 80-83: the number of
lines of the diff text that start with a plus sign, headers included. -/
def plusCount (d : String) : Nat :=
  ((pySplitNl d).filter (fun l => pyStarts "+" l)).length

/-- The minus-line count of `git_operations.py` lines 84-87. -/
def minusCount (d : String) : Nat :=
  ((pySplitNl d).filter (fun l => pyStarts "-" l)).length

/-- The stat computation of `git_operations.py` lines 78-87: lines are
only counted when the diff text is non-empty and does not start with an
opening bracket (the sentinel prefix). -/
def countStats (d : String) : Nat × Nat :=
  if d == "" || pyStarts "[" d then (0, 0) else (plusCount d, minusCount d)

/-- The per-file body of `get_unstaged_changes` (`git_operations.py` lines
64-96): dispatch on membership in the modified list, then build the
`Change` with the textual stats.  `Except.error` is the exception caught
by the per-file handler at lines 97-100. -/
def processOne (fs : RepoFS) (f : String) : Except String Change :=
  match (if fs.modified.contains f then handle_modified_file fs f else handle_untracked_file fs f) with
  | .error e => .error e
  | .ok (status, diff) => .ok ⟨f, status, diff, (countStats diff).1, (countStats diff).2⟩

/-- The scan loop of `get_unstaged_changes`: per-file failures are turned
into warnings (the `console.print` text without its colour markup) and the
file is skipped; successes are appended in order. -/
def scanFiles (fs : RepoFS) : List String → List Change × List String
  | [] => ([], [])
  | f :: rest =>
    match processOne fs f with
    | .ok c => ((scanFiles fs rest).1.cons c, (scanFiles fs rest).2)
    | .error e => ((scanFiles fs rest).1, (scanFiles fs rest).2.cons ("Warning: Could not process " ++ f ++ ": " ++ e))

/-- `GitOperations.get_unstaged_changes` (`git_operations.py` lines
42-102), returning the change list and the emitted warnings. -/
def get_unstaged_changes (fs : RepoFS) : List Change × List String :=
  scanFiles fs (fs.modified ++ fs.untracked)

/-- The classification body of `get_staged_changes` (`git_operations.py`
lines 128-164) for one diff entry, given the initial `insertions` and
`deletions` values.  `Except.ok` carries `(status, content, insertions,
deletions)`; `Except.error` models an exception reaching the
`except Exception` handler and carries the message together with the
`insertions`/`deletions` values at the moment it was raised. -/
def classify_staged (fs : RepoFS) (d : DiffEntry) (ins0 del0 : Nat) :
    Except (String × Nat × Nat) (String × String × Nat × Nat) :=
  if d.deleted_file then
    .ok ("deleted", "[File deleted]", 0, (match d.a_blob with | some b => b.size | none => 0))
  else if d.new_file then
    if (match d.b_blob with | some b => b.is_binary | none => false) then
      .ok ("new file (binary)", "[Binary file]", ins0, del0)
    else
      match (fs.info (d.b_path.getD "")).readErr with
      | some m => .ok ("new file", "[Error reading file: " ++ m ++ "]", ins0, del0)
      | none =>
        match (fs.info (d.b_path.getD "")).text with
        | some t => .ok ("new file", t, pyLineCount t, 0)
        | none => .error ("UnicodeDecodeError", ins0, del0)
  else
    match fs.diffCached (d.a_path.getD "") with
    | .error m => .ok ("modified", "[Error getting diff: " ++ m ++ "]", ins0, del0)
    | .ok content =>
      match fs.numstatRes (d.a_path.getD "") with
      | .error m => .ok ("modified", "[Error getting diff: " ++ m ++ "]", ins0, del0)
      | .ok stats =>
        if stats.length < 2 then .ok ("modified", content, ins0, del0)
        else
          let s0 := stats.headD ""
          let s1 := (stats.drop 1).headD ""
          match (if s0 == "-" then some 0 else s0.toNat?) with
          | none => .error ("invalid literal for int() with base 10: " ++ s0, ins0, del0)
          | some i =>
            match (if s1 == "-" then some 0 else s1.toNat?) with
            | none => .error ("invalid literal for int() with base 10: " ++ s1, i, del0)
            | some de => .ok ("modified", content, i, de)

/-- `GitOperations.get_staged_changes` (`git_operations.py` lines
104-173) over a given staged diff index: every entry yields a `Change`;
an unexpected exception yields `status="error"` with a descriptive diff
message, keeping the entry in the result. -/
def get_staged_changes (fs : RepoFS) (entries : List DiffEntry) : List Change :=
  entries.map (fun d =>
    match classify_staged fs d (d.insertions_attr.getD 0) (d.deletions_attr.getD 0) with
    | .ok (st, content, i, de) => ⟨d.b_path.getD (d.a_path.getD ""), st, content, i, de⟩
    | .error (m, i, de) => ⟨d.b_path.getD (d.a_path.getD ""), "error", "[Unexpected error: " ++ m ++ "]", i, de⟩)

/-- Insertion count as the specification states it: plus-lines excluding
the `+++` file-header line.  This follows the spec text, for comparison
with the source's `plusCount`. -/
def spec_insertions (d : String) : Nat :=
  ((pySplitNl d).filter (fun l => pyStarts "+" l && !pyStarts "+++" l)).length

/-- Deletion count as the specification states it: minus-lines excluding
the `---` file-header line.  This follows the spec text, for comparison
with the source's `minusCount`. -/
def spec_deletions (d : String) : Nat :=
  ((pySplitNl d).filter (fun l => pyStarts "-" l && !pyStarts "---" l)).length

/-- Concrete change in directory `src` with stem `a`. -/
def cA : Change := ⟨"src/a.txt", "modified", "", 0, 0⟩

/-- Concrete change in directory `lib` with stem `b`, unrelated to `cA`. -/
def cB : Change := ⟨"lib/b.txt", "modified", "", 0, 0⟩

/-- Concrete change unrelated to `cA` and `cB` (no shared directory, no
stem occurrence). -/
def cC : Change := ⟨"x/c.txt", "modified", "", 0, 0⟩

/-- Concrete change whose path contains the stem `a` of `cA`, so the
locality extension absorbs it into a batch containing `cA`. -/
def cD : Change := ⟨"y/a_util.txt", "modified", "", 0, 0⟩

/-- A configuration with an API key present. -/
def cfgSome : Config := ⟨some "key"⟩

/-- Grouping Client that fails with a context-length error exactly on
batches of four changes and succeeds (with no groups) on all others. -/
def client4 : Client := fun batch =>
  if batch.length == 4 then .exc ⟨true, "maximum context length exceeded"⟩ else .ok []

/-- Grouping Client that fails with a context-length error on every call,
including single-change batches. -/
def clientCtxAlways : Client := fun _ => .exc ⟨true, "maximum context length exceeded"⟩

/-- An `OpenAIError` that is not a context-length failure. -/
def eOther : PyExc := ⟨true, "rate_limit"⟩

/-- Grouping Client that raises `eOther` on every call. -/
def clientOther : Client := fun _ => .exc eOther

/-- A unified diff with `---`/`+++` file-header lines, one removed line
and one added line. -/
def dtext : String := "--- a/f.txt\n+++ b/f.txt\n@@ -1 +1 @@\n-old\n+new"

/-- File facts for paths the concrete repositories know nothing about. -/
def fiDefault : FileInfo := ⟨false, false, [], none, none⟩

/-- Repository with a single untracked text file `a.txt` containing
`"hello\n"` (bytes 104 101 108 108 111 10). -/
def fsA : RepoFS :=
  ⟨[], ["a.txt"],
   fun f => if f == "a.txt" then ⟨true, true, [104, 101, 108, 108, 111, 10], some "hello\n", none⟩ else fiDefault,
   fun _ => .error "", fun _ => .error "", fun _ => .error ""⟩

/-- Repository with a single modified file `f.txt` whose working-tree diff
is `dtext`. -/
def fsMod : RepoFS :=
  ⟨["f.txt"], [], fun _ => fiDefault,
   fun f => if f == "f.txt" then .ok dtext else .error "",
   fun _ => .error "", fun _ => .error ""⟩

/-- Repository with three untracked files of which `u2.txt` raises a
permission error when read. -/
def fs3 : RepoFS :=
  ⟨[], ["u1.txt", "u2.txt", "u3.txt"],
   fun f => if f == "u2.txt" then ⟨true, true, [], none, some "Permission denied"⟩
            else ⟨true, true, [104], some "h", none⟩,
   fun _ => .error "", fun _ => .error "", fun _ => .error ""⟩

/-- Repository with a single untracked binary file `b.bin` whose four
bytes contain a NUL. -/
def fsB : RepoFS :=
  ⟨[], ["b.bin"],
   fun f => if f == "b.bin" then ⟨true, true, [0, 1, 2, 3], none, none⟩ else fiDefault,
   fun _ => .error "", fun _ => .error "", fun _ => .error ""⟩

/-- Repository whose file oracle reports a readable but undecodable file
for every path; used for staged-scope runs. -/
def fsEmpty : RepoFS :=
  ⟨[], [], fun _ => ⟨true, true, [], none, none⟩,
   fun _ => .error "", fun _ => .error "", fun _ => .error ""⟩

/-- Repository where the diff for the modified file `g.txt` fails and the
file is gone from disk. -/
def fsGone : RepoFS :=
  ⟨["g.txt"], [], fun _ => fiDefault,
   fun _ => .error "fatal: bad revision", fun _ => .error "", fun _ => .error ""⟩

/-- Repository where the diff for the modified file `h.txt` fails while
the file still exists on disk. -/
def fsIO : RepoFS :=
  ⟨["h.txt"], [], fun _ => ⟨true, true, [], none, none⟩,
   fun _ => .error "fatal: bad revision", fun _ => .error "", fun _ => .error ""⟩

/-- Staged diff entry for a deleted file whose last blob held `"hello\n"`:
six bytes (`Blob.size`), one line. -/
def entryD : DiffEntry := ⟨some "gone.txt", none, true, false, some ⟨"hello\n".length, false⟩, none, none, none⟩

/-- Staged diff entry for a new file `s.bin` whose content-type probe says
text but whose bytes fail UTF-8 decoding, raising inside the entry's
classification. -/
def entryBad : DiffEntry := ⟨some "s.bin", some "s.bin", false, true, none, some ⟨4, false⟩, none, none⟩

/-- A successfully processed `processOne` result carries the scanned path
and the textual stats of its own diff field. -/
theorem processOne_parts (fs : RepoFS) (f : String) (c : Change)
    (h : processOne fs f = Except.ok c) :
    c.file = f ∧ c.insertions = (countStats c.diff).1 ∧ c.deletions = (countStats c.diff).2 := by
  unfold processOne at h
  rcases hm : (if fs.modified.contains f then handle_modified_file fs f else handle_untracked_file fs f) with e | p
  · rw [hm] at h
    exact absurd h (by simp)
  · rw [hm] at h
    obtain ⟨st, d⟩ := p
    simp only [Except.ok.injEq] at h
    subst h
    exact ⟨rfl, rfl, rfl⟩

/-- Processing a file outside the modified list goes through the
untracked handler, whose successful result is wrapped with the textual
stats. -/
theorem processOne_untracked_eq (fs : RepoFS) (f : String) (hmod : f ∉ fs.modified)
    (st d : String) (hh : handle_untracked_file fs f = Except.ok (st, d)) :
    processOne fs f = Except.ok ⟨f, st, d, (countStats d).1, (countStats d).2⟩ := by
  have hc : fs.modified.contains f = false := by simpa using hmod
  unfold processOne
  rw [hc, hh]
  rfl

/-- Processing a file of the modified list propagates a failure of the
modified handler. -/
theorem processOne_modified_err (fs : RepoFS) (f : String) (hmod : f ∈ fs.modified)
    (e : String) (hh : handle_modified_file fs f = Except.error e) :
    processOne fs f = Except.error e := by
  have hc : fs.modified.contains f = true := by simpa using hmod
  unfold processOne
  rw [hc, hh]
  rfl

/-- When every file of a scan list processes successfully, the scan keeps
them all, in order, and emits no warning. -/
theorem scanFiles_all_ok (fs : RepoFS) : ∀ L : List String,
    (∀ f ∈ L, ∃ c, processOne fs f = Except.ok c) →
    (scanFiles fs L).1.map Change.file = L ∧ (scanFiles fs L).2 = [] := by
  intro L
  induction L with
  | nil => intro _; exact ⟨rfl, rfl⟩
  | cons f rest ih =>
    intro h
    obtain ⟨c, hc⟩ := h f (by simp)
    obtain ⟨h1, h2⟩ := ih (fun g hg => h g (by simp [hg]))
    simp only [scanFiles, hc]
    exact ⟨by simp [h1, (processOne_parts fs f c hc).1], h2⟩

/-- When exactly one file of a scan list fails and all others succeed,
the scan keeps all the others in order and emits one warning for the
failing file. -/
theorem scanFiles_one_err (fs : RepoFS) (f₀ e : String) : ∀ L : List String,
    L.count f₀ = 1 → processOne fs f₀ = Except.error e →
    (∀ f ∈ L, f ≠ f₀ → ∃ c, processOne fs f = Except.ok c) →
    (scanFiles fs L).1.map Change.file = L.erase f₀ ∧
    (scanFiles fs L).2 = ["Warning: Could not process " ++ f₀ ++ ": " ++ e] := by
  intro L
  induction L with
  | nil => intro hcount; simp at hcount
  | cons f rest ih =>
    intro hcount herr hok
    by_cases hf : f = f₀
    · subst hf
      have hzero : rest.count f = 0 := by
        rw [List.count_cons_self] at hcount
        omega
      have hnotmem : f ∉ rest := List.count_eq_zero.mp hzero
      have hall : ∀ g ∈ rest, ∃ c, processOne fs g = Except.ok c := by
        intro g hg
        refine hok g (by simp [hg]) ?_
        intro hgf
        exact hnotmem (hgf ▸ hg)
      obtain ⟨h1, h2⟩ := scanFiles_all_ok fs rest hall
      simp only [scanFiles, herr]
      exact ⟨by simp [h1, List.erase_cons_head], by rw [h2]⟩
    · have hcount2 : rest.count f₀ = 1 := by
        rwa [List.count_cons_of_ne (fun hne => hf hne.symm)] at hcount
      obtain ⟨c, hc⟩ := hok f (by simp) hf
      obtain ⟨h1, h2⟩ := ih hcount2 herr (fun g hg hne => hok g (by simp [hg]) hne)
      have hbe : (f == f₀) = false := by
        simpa using hf
      simp only [scanFiles, hc]
      exact ⟨by simp [List.erase_cons, hbe, h1, (processOne_parts fs f c hc).1], h2⟩

/-- A file that processes successfully contributes its change to the scan
of any list containing it. -/
theorem scanFiles_mem_of (fs : RepoFS) (f : String) (c : Change)
    (hc : processOne fs f = Except.ok c) :
    ∀ L : List String, f ∈ L → c ∈ (scanFiles fs L).1 := by
  intro L
  induction L with
  | nil => intro h; simp at h
  | cons g rest ih =>
    intro hmem
    rcases List.mem_cons.mp hmem with hg | hg
    · subst hg
      simp only [scanFiles, hc]
      exact List.mem_cons_self _ _
    · rcases hpg : processOne fs g with e | c0 <;> simp only [scanFiles, hpg]
      · exact ih hg
      · exact List.mem_cons_of_mem _ (ih hg)

/-- Every change of a scan result comes from processing one of the
scanned files successfully. -/
theorem mem_scanFiles_src (fs : RepoFS) : ∀ (L : List String) (c : Change),
    c ∈ (scanFiles fs L).1 → ∃ f, f ∈ L ∧ processOne fs f = Except.ok c := by
  intro L
  induction L with
  | nil => intro c h; simp [scanFiles] at h
  | cons g rest ih =>
    intro c h
    rcases hpg : processOne fs g with e | c0
    · simp only [scanFiles, hpg] at h
      obtain ⟨f, hf, h2⟩ := ih c h
      exact ⟨f, by simp [hf], h2⟩
    · simp only [scanFiles, hpg] at h
      rcases List.mem_cons.mp h with heq | hmem
      · subst heq
        exact ⟨g, by simp, hpg⟩
      · obtain ⟨f, hf, h2⟩ := ih c hmem
        exact ⟨f, by simp [hf], h2⟩

/-- The element a map places at the position right after a leading
segment is the image of the element there. -/
theorem map_get_mid {α β : Type} (g : α → β) : ∀ (l1 : List α) (a : α) (l2 : List α),
    ((l1 ++ a :: l2).map g)[l1.length]? = some (g a) := by
  intro l1
  induction l1 with
  | nil => intro a l2; simp
  | cons x xs ih => intro a l2; simpa using ih a l2

/-- With two unrelated changes and an always-context-length client, one
iteration of the batch loop at batch size 1 reproduces its own state, so
the loop consumes any amount of fuel. -/
theorem loop2_stuck : ∀ (fuel : Nat) (acc : List CommitGroup) (bs : List (List Change)),
    batchLoop clientCtxAlways fuel [cA, cB] 1 acc bs = PlanOut.outOfFuel := by
  intro fuel
  induction fuel with
  | zero => intro acc bs; rfl
  | succ n ih => intro acc bs; exact ih acc bs

/-- C1.  Divergence witnessed at a concrete input: with four changes
`cA cB cC cD` where `cD` is path-related to `cA`, and a client that fails
with context-length only on the whole four-change list, the planner's
successful batches are `[cA, cB, cD]` and `[cD]`: their concatenation
submits `cD` twice and drops `cC` entirely, so it is not a partition of
the original list.  (Line 112 advances `remaining_changes` by
`len(current_batch)` although the extension-absorbed `cD` was popped only
from the copied `next_files`.) -/
theorem claim_C1 :
    analyze_changes cfgSome client4 10 [cA, cB, cC, cD] = PlanOut.done [] [[cA, cB, cD], [cD]] ∧
    ([cA, cB, cD] ++ [cD]).count cD = 2 ∧
    ([cA, cB, cD] ++ [cD]).count cC = 0 ∧
    cC ∈ [cA, cB, cC, cD] := by
  refine ⟨by decide, by decide, by decide, by decide⟩

/-- C2.  Divergence witnessed at a concrete input: with the two unrelated
changes `cA cB` and a client that fails with context-length on every
call, the planner never terminates: for every fuel the run is still out
of fuel, and in particular it never raises the fatal
"even a single change exceeds" error.  (`max(1, batch_size // 2)` at line
116 keeps `batch_size` at 1, so the `batch_size < 1` check at line 86 is
unreachable once the loop has started.) -/
theorem claim_C2 : ∀ fuel : Nat,
    analyze_changes cfgSome clientCtxAlways fuel [cA, cB] = PlanOut.outOfFuel ∧
    analyze_changes cfgSome clientCtxAlways fuel [cA, cB] ≠ PlanOut.fatal := by
  intro fuel
  have h : analyze_changes cfgSome clientCtxAlways fuel [cA, cB] = PlanOut.outOfFuel :=
    loop2_stuck fuel [] []
  refine ⟨h, ?_⟩
  rw [h]
  decide

/-- C9.  A Grouping Client failure that is not a context-length failure is
propagated unchanged: on the initial whole-list attempt the planner
returns exactly the raised exception, and inside the batch loop the next
step returns exactly the raised exception of the current batch's call,
performing no retry. -/
theorem claim_C9 :
    (∀ (cfg : Config) (key : String) (client : Client) (fuel : Nat) (changes : List Change) (e : PyExc),
        cfg.apiKey = some key → changes ≠ [] → client changes = ClientRes.exc e →
        isCtxLenErr e = false →
        analyze_changes cfg client fuel changes = PlanOut.raised e) ∧
    (∀ (client : Client) (fuel : Nat) (remaining : List Change) (batchSize : Nat)
        (acc : List CommitGroup) (bs : List (List Change)) (e : PyExc),
        remaining ≠ [] → 1 ≤ batchSize →
        client (currentBatch remaining batchSize) = ClientRes.exc e →
        isCtxLenErr e = false →
        batchLoop client (fuel + 1) remaining batchSize acc bs = PlanOut.raised e) := by
  constructor
  · intro cfg key client fuel changes e hkey hne hc hctx
    rcases changes with _ | ⟨c, cs⟩
    · exact absurd rfl hne
    · simp [analyze_changes, hkey, hc, hctx]
  · intro client fuel remaining batchSize acc bs e hne hbatch hc hctx
    rcases remaining with _ | ⟨r0, rs⟩
    · exact absurd rfl hne
    · have hlt : ¬ batchSize < 1 := by omega
      simp [batchLoop, hlt, hc, hctx]

/-- C9 witness: the client raising the non-context-length `eOther` aborts
both the whole-list attempt and a batch-loop step with exactly that
exception. -/
theorem witness_C9 :
    analyze_changes cfgSome clientOther 5 [cA] = PlanOut.raised eOther ∧
    batchLoop clientOther 1 [cA] 1 [] [] = PlanOut.raised eOther :=
  ⟨claim_C9.1 cfgSome "key" clientOther 5 [cA] eOther rfl (by decide) rfl (by decide),
   claim_C9.2 clientOther 0 [cA] 1 [] [] eOther (by decide) (by decide) rfl (by decide)⟩

/-- C10.  The empty change list returns the empty group list immediately:
the result is `done [] []` for every configuration (even one with no API
key, so no credential check happens) and for every client and fuel (so no
grouping call happens). -/
theorem claim_C10 : ∀ (cfg : Config) (client : Client) (fuel : Nat),
    analyze_changes cfg client fuel [] = PlanOut.done [] [] := by
  intro cfg client fuel
  rfl

/-- C3 counterexample: for the modified file `f.txt` with the header-lined
diff `dtext`, the unstaged scan reports insertions 2 and deletions 2
(headers counted), while the claim's header-excluding counts are 1 and 1. -/
theorem counterexample_C3 :
    (get_unstaged_changes fsMod).1 = [⟨"f.txt", "modified", dtext, 2, 2⟩] ∧
    spec_insertions dtext = 1 ∧ spec_deletions dtext = 1 ∧ ¬ ((2 : Nat) = 1) := by
  refine ⟨by decide, by decide, by decide, by decide⟩

/-- C3 amended: for every change of the unstaged scan whose diff text is
non-empty and does not start with an opening bracket, the reported
insertions equal the number of lines starting with a plus sign including
the `+++` header line, and deletions the number of lines starting with a
minus sign including the `---` header line. -/
theorem claim_C3 : ∀ (fs : RepoFS) (c : Change),
    c ∈ (get_unstaged_changes fs).1 → c.diff ≠ "" → pyStarts "[" c.diff = false →
    c.insertions = plusCount c.diff ∧ c.deletions = minusCount c.diff := by
  intro fs c hmem hne hbr
  obtain ⟨f, -, hok⟩ := mem_scanFiles_src fs (fs.modified ++ fs.untracked) c hmem
  obtain ⟨-, h2, h3⟩ := processOne_parts fs f c hok
  have hbe : (c.diff == "") = false := by simpa using hne
  have hcs : countStats c.diff = (plusCount c.diff, minusCount c.diff) := by
    simp [countStats, hbe, hbr]
  rw [h2, h3, hcs]
  exact ⟨rfl, rfl⟩

/-- C3 witness: the concrete change produced for `f.txt` in `fsMod` has
insertions 2 = all-plus-line count and deletions 2 = all-minus-line
count of its diff. -/
theorem witness_C3 :
    (2 : Nat) = plusCount dtext ∧ (2 : Nat) = minusCount dtext :=
  claim_C3 fsMod ⟨"f.txt", "modified", dtext, 2, 2⟩ (by decide) (by decide) (by decide)

/-- C4 counterexample: the untracked text file `a.txt` with content
`"hello\n"` (one line) yields a change with insertions 0, not the line
count 1 the claim requires: the unstaged scan applies the plus-line
heuristic to the full content instead of counting its lines. -/
theorem counterexample_C4 :
    (get_unstaged_changes fsA).1 = [⟨"a.txt", "new file", "hello\n", 0, 0⟩] ∧
    pyLineCount "hello\n" = 1 ∧ ¬ ((0 : Nat) = 1) := by
  refine ⟨by decide, by decide, by decide⟩

/-- C4 amended: every untracked regular text file (readable, no NUL in
its first MiB, decodable, with non-empty content not starting with an
opening bracket) yields a change with status `new file`, diff equal to
the full content, insertions equal to the number of content lines
starting with a plus sign, and deletions the number starting with a minus
sign — for `"hello\n"` both counts are 0. -/
theorem claim_C4 : ∀ (fs : RepoFS) (f t : String),
    f ∉ fs.modified → f ∈ fs.untracked →
    (fs.info f).isFile = true → (fs.info f).readErr = none →
    0 ∉ (fs.info f).bytes.take 1048576 →
    (fs.info f).text = some t → t ≠ "" → pyStarts "[" t = false →
    Change.mk f "new file" t (plusCount t) (minusCount t) ∈ (get_unstaged_changes fs).1 := by
  intro fs f t hmod hmem hisf hre hnul htext hne hbr
  have hh : handle_untracked_file fs f = Except.ok ("new file", t) := by
    simp [handle_untracked_file, hisf, hre, hnul, htext]
  have hbe : (t == "") = false := by simpa using hne
  have hcs : countStats t = (plusCount t, minusCount t) := by
    unfold countStats
    rw [hbe, hbr]
    rfl
  have hp := processOne_untracked_eq fs f hmod "new file" t hh
  rw [hcs] at hp
  exact scanFiles_mem_of fs f _ hp (fs.modified ++ fs.untracked) (by simp [hmem])

/-- C4 witness: in `fsA` the file `a.txt` with content `"hello\n"`
contributes the change with plus-line and minus-line counts of its
content (both 0). -/
theorem witness_C4 :
    Change.mk "a.txt" "new file" "hello\n" (plusCount "hello\n") (minusCount "hello\n")
      ∈ (get_unstaged_changes fsA).1 :=
  claim_C4 fsA "a.txt" "hello\n" (by decide) (by decide) rfl rfl (by decide) rfl (by decide)
    (by decide)

/-- C5.  Divergence witnessed at a concrete input: a staged deletion whose
last blob held `"hello\n"` (blob size 6 bytes, 1 line) is reported with
deletions 6 — the code stores `a_blob.size`, a byte count, where its own
docstring and the claim require the pre-deletion line count 1. -/
theorem claim_C5 :
    get_staged_changes fsEmpty [entryD] =
      [Change.mk "gone.txt" "deleted" "[File deleted]" 0 "hello\n".length] ∧
    "hello\n".length = 6 ∧ pyLineCount "hello\n" = 1 ∧ ¬ ((6 : Nat) = 1) := by
  refine ⟨by decide, by decide, by decide, by decide⟩

/-- C6.  For an untracked regular readable file: the scan classifies it
as `new file (binary)` with the binary sentinel exactly when a NUL byte
occurs in the first MiB or UTF-8 decoding fails; otherwise it is a
`new file` carrying the full text; and the binary classification always
yields insertions 0 and deletions 0. -/
theorem claim_C6 : ∀ (fs : RepoFS) (f : String),
    (fs.info f).isFile = true → (fs.info f).readErr = none →
    ((handle_untracked_file fs f = Except.ok ("new file (binary)", "[Binary file]")) ↔
       (0 ∈ (fs.info f).bytes.take 1048576 ∨ (fs.info f).text = none)) ∧
    (∀ t, (fs.info f).text = some t → 0 ∉ (fs.info f).bytes.take 1048576 →
       handle_untracked_file fs f = Except.ok ("new file", t)) ∧
    ((0 ∈ (fs.info f).bytes.take 1048576 ∨ (fs.info f).text = none) →
       f ∉ fs.modified →
       processOne fs f = Except.ok (Change.mk f "new file (binary)" "[Binary file]" 0 0)) := by
  intro fs f hisf hre
  have hbin : (0 ∈ (fs.info f).bytes.take 1048576 ∨ (fs.info f).text = none) →
      handle_untracked_file fs f = Except.ok ("new file (binary)", "[Binary file]") := by
    intro h
    rcases h with hb | ht
    · simp [handle_untracked_file, hisf, hre, hb]
    · by_cases hb : 0 ∈ (fs.info f).bytes.take 1048576
      · simp [handle_untracked_file, hisf, hre, hb]
      · simp [handle_untracked_file, hisf, hre, hb, ht]
  refine ⟨⟨?_, hbin⟩, ?_, ?_⟩
  · intro h
    by_cases hb : 0 ∈ (fs.info f).bytes.take 1048576
    · exact Or.inl hb
    · rcases ht : (fs.info f).text with _ | t
      · exact Or.inr rfl
      · rw [show handle_untracked_file fs f = Except.ok ("new file", t) from by
          simp [handle_untracked_file, hisf, hre, hb, ht]] at h
        simp only [Except.ok.injEq, Prod.mk.injEq] at h
        exact absurd h.1 (by decide)
  · intro t ht hb
    simp [handle_untracked_file, hisf, hre, hb, ht]
  · intro h hmod
    exact processOne_untracked_eq fs f hmod "new file (binary)" "[Binary file]" (hbin h)

/-- C6 witness: the untracked file `b.bin` of `fsB`, whose four bytes
contain a NUL, is scanned as a binary new file with zero counts. -/
theorem witness_C6 :
    processOne fsB "b.bin" = Except.ok (Change.mk "b.bin" "new file (binary)" "[Binary file]" 0 0) :=
  (claim_C6 fsB "b.bin" rfl rfl).2.2 (Or.inl (by decide)) (by decide)

/-- C7.  When the diff step for a tracked modified file fails at the git
level: if the file is gone from disk the handler reclassifies it as
deleted with the sentinel diff; if the file still exists the handler
raises the per-file I/O error, which the scan's per-file policy then
isolates. -/
theorem claim_C7 : ∀ (fs : RepoFS) (f m : String),
    fs.gitDiff f = Except.error m →
    (((fs.info f).onDisk = false) →
       handle_modified_file fs f = Except.ok ("deleted", "[File deleted]")) ∧
    (((fs.info f).onDisk = true) →
       handle_modified_file fs f = Except.error ("Failed to get diff for " ++ f) ∧
       (f ∈ fs.modified →
          processOne fs f = Except.error ("Failed to get diff for " ++ f))) := by
  intro fs f m hdiff
  constructor
  · intro hgone
    simp [handle_modified_file, hdiff, hgone]
  · intro hthere
    have hh : handle_modified_file fs f = Except.error ("Failed to get diff for " ++ f) := by
      simp [handle_modified_file, hdiff, hthere]
    exact ⟨hh, fun hmod => processOne_modified_err fs f hmod _ hh⟩

/-- C7 witness: in `fsGone` the vanished file `g.txt` is reclassified as
deleted; in `fsIO` the still-present file `h.txt` raises the I/O error
from `processOne`. -/
theorem witness_C7 :
    handle_modified_file fsGone "g.txt" = Except.ok ("deleted", "[File deleted]") ∧
    processOne fsIO "h.txt" = Except.error ("Failed to get diff for " ++ "h.txt") :=
  ⟨(claim_C7 fsGone "g.txt" "fatal: bad revision" rfl).1 rfl,
   ((claim_C7 fsIO "h.txt" "fatal: bad revision" rfl).2 rfl).2 (by decide)⟩

/-- C8.  Failure isolation: if exactly one file of the unstaged scan list
raises, the scan keeps every other file in order, drops the failing one,
and emits exactly one warning naming it; in the staged scan a failing
entry stays in the result with status `error` and a descriptive diff
message, and the result covers every entry. -/
theorem claim_C8 :
    (∀ (fs : RepoFS) (f₀ e : String),
        (fs.modified ++ fs.untracked).count f₀ = 1 →
        processOne fs f₀ = Except.error e →
        (∀ f ∈ fs.modified ++ fs.untracked, f ≠ f₀ → ∃ c, processOne fs f = Except.ok c) →
        (get_unstaged_changes fs).1.map Change.file = (fs.modified ++ fs.untracked).erase f₀ ∧
        (get_unstaged_changes fs).2 = ["Warning: Could not process " ++ f₀ ++ ": " ++ e]) ∧
    (∀ (fs : RepoFS) (pre post : List DiffEntry) (d : DiffEntry) (m : String) (i j : Nat),
        classify_staged fs d (d.insertions_attr.getD 0) (d.deletions_attr.getD 0) =
          Except.error (m, i, j) →
        (get_staged_changes fs (pre ++ d :: post)).length = (pre ++ d :: post).length ∧
        (get_staged_changes fs (pre ++ d :: post))[pre.length]? =
          some (Change.mk (d.b_path.getD (d.a_path.getD "")) "error"
            ("[Unexpected error: " ++ m ++ "]") i j)) := by
  constructor
  · intro fs f₀ e hcount herr hok
    exact scanFiles_one_err fs f₀ e (fs.modified ++ fs.untracked) hcount herr hok
  · intro fs pre post d m i j hcls
    constructor
    · simp [get_staged_changes]
    · show ((pre ++ d :: post).map _)[pre.length]? = _
      rw [map_get_mid]
      simp [hcls]

/-- C8 witness: of the three untracked files of `fs3` only `u2.txt`
fails (permission error): the scan keeps `u1.txt` and `u3.txt` and warns
once about `u2.txt`; the staged entry `entryBad` fails decoding and stays
in the result as an `error` change. -/
theorem witness_C8 :
    ((get_unstaged_changes fs3).1.map Change.file =
        (fs3.modified ++ fs3.untracked).erase "u2.txt" ∧
      (get_unstaged_changes fs3).2 =
        ["Warning: Could not process " ++ "u2.txt" ++ ": " ++ "Permission denied"]) ∧
    ((get_staged_changes fsEmpty ([] ++ entryBad :: [])).length = ([] ++ entryBad :: []).length ∧
      (get_staged_changes fsEmpty ([] ++ entryBad :: []))[(0 : Nat)]? =
        some (Change.mk "s.bin" "error" ("[Unexpected error: " ++ "UnicodeDecodeError" ++ "]") 0 0)) :=
  ⟨claim_C8.1 fs3 "u2.txt" "Permission denied" (by decide) rfl (by
      intro f hf hne
      have hf2 : f ∈ ["u1.txt", "u2.txt", "u3.txt"] := hf
      rcases List.mem_cons.mp hf2 with rfl | hf3
      · exact ⟨_, rfl⟩
      rcases List.mem_cons.mp hf3 with rfl | hf4
      · exact absurd rfl hne
      rcases List.mem_cons.mp hf4 with rfl | hf5
      · exact ⟨_, rfl⟩
      · simp at hf5),
   claim_C8.2 fsEmpty [] [] entryBad "UnicodeDecodeError" 0 0 rfl⟩

end Aicmt

